import Mathlib

/-!
Verification of the OverDrive Thunder API client
(`src/calibre-plugin/overdrive/client.py`), shallowly embedded in Lean 4.

The embedding models:
* the retry loop of `OverDriveClient.send_request` (HTTP status errors,
  transport faults, success) as an attempt oracle `Nat → AttemptOutcome`
  driving a recursive loop;
* the response-decoding stage (empty/whitespace bodies, JSON vs text);
* HTTP-method determination (explicit override vs inference from body);
* the query-dictionary construction used by the endpoint helpers, with
  Python `dict.update` semantics (insert-or-replace, caller values win);
* `LibraryMediaSearchParams.to_dict`;
* `OverDriveClient.extract_isbn` and `OverDriveClient.sort_availabilities`.

Numeric JSON values are modelled as integers; gzip inflation and UTF-8
decoding are abstracted by working with the already-decoded body text,
and `json.loads` by a constructor marking the body as JSON-parsed.
-/

set_option autoImplicit false

namespace LibbyClient

/-- `CLIENT_ID = "dewey"` from the source. -/
def CLIENT_ID : String := "dewey"

/-- The characters Python's `str.strip()` removes:
space, tab, newline, carriage return, vertical tab, form feed. -/
def pySpace (c : Char) : Bool :=
  c = ' ' || c = '\t' || c = '\n' || c = '\r' ||
    c = Char.ofNat 11 || c = Char.ofNat 12

/-- Python `str.strip()`: drop leading and trailing whitespace. -/
def pyStrip (s : String) : String :=
  ⟨((s.data.dropWhile pySpace).reverse.dropWhile pySpace).reverse⟩

/-- Python `str.upper()` (restricted to the ASCII casing the client's
method names use): upper-case every character. -/
def upperStr (s : String) : String :=
  ⟨s.data.map Char.toUpper⟩

/-- Python `str.startswith(pre)`. -/
def startsWith (s pre : String) : Bool :=
  pre.data.isPrefixOf s.data

/-! ### The send_request retry loop

`send_request` runs `for attempt in range(0, self.max_retries + 1)`.
Each iteration either succeeds, raises `HTTPError` (carrying a status
code), or raises one of the transport-level fault classes
(`SSLError`, `SocketTimeout`, `SocketError`, `URLError`, `HTTPException`,
`ConnectionError`).  We model the behaviour of the network on attempt
`i` by an oracle `outcomes : Nat → AttemptOutcome`. -/

/-- An HTTP response, after gzip inflation and UTF-8 decoding of the body
(`_read_response`): the decoded body text and the declared content-type. -/
structure HttpResponse where
  bodyText : String
  contentType : String
  deriving Repr, DecidableEq

/-- What a single attempt of the network call inside `send_request` does. -/
inductive AttemptOutcome where
  /-- `self.opener.open` returns a response. -/
  | success (resp : HttpResponse)
  /-- `HTTPError` is raised, carrying status `code`. -/
  | httpError (code : Nat)
  /-- One of the transport-level fault classes is raised; `cls` is the
  exception class name, `msg` its message (`str(connection_error)`). -/
  | connError (cls msg : String)
  deriving Repr, DecidableEq

/-- Result of the attempt loop, before response decoding. -/
inductive LoopResult where
  /-- A response was obtained. -/
  | ok (resp : HttpResponse)
  /-- The `HTTPError` was re-raised (`raise`), carrying its status code. -/
  | httpErr (code : Nat)
  /-- `ClientConnectionError` was raised with the given message
  (`"{} {}".format(class_name, str(error))`). -/
  | connFail (msg : String)
  deriving Repr, DecidableEq

/-- The attempt loop of `send_request`, starting at index `attempt`.
Returns the terminal result together with the total number of attempts
made (the final attempt index plus one).

Mirrors the source: an `HTTPError` is retried iff
`attempt < self.max_retries and e.code >= 500`, a transport fault is
retried iff `attempt < self.max_retries`; otherwise the `HTTPError` is
re-raised resp. wrapped into a `ClientConnectionError`. -/
def sendLoop (outcomes : Nat → AttemptOutcome) (maxRetries : Nat)
    (attempt : Nat) : LoopResult × Nat :=
  match outcomes attempt with
  | .success resp => (.ok resp, attempt + 1)
  | .httpError code =>
    if h : attempt < maxRetries ∧ 500 ≤ code then
      sendLoop outcomes maxRetries (attempt + 1)
    else
      (.httpErr code, attempt + 1)
  | .connError cls msg =>
    if h : attempt < maxRetries then
      sendLoop outcomes maxRetries (attempt + 1)
    else
      (.connFail (cls ++ " " ++ msg), attempt + 1)
termination_by maxRetries - attempt
decreasing_by
  · omega
  · omega

/-- Result of decoding a successful response body
(the tail of `send_request` after the loop). -/
inductive DecodeResult where
  /-- `return {}` — the empty mapping. -/
  | emptyMap
  /-- `json.loads(response_content)` — the body parsed as JSON. -/
  | jsonParsed (body : String)
  /-- The decoded text returned verbatim. -/
  | text (body : String)
  deriving Repr, DecidableEq

/-- The decode stage of `send_request` (for `decode_response=True`):
if the decoded body is empty or whitespace-only (`not content.strip()`),
return the empty mapping; else if the content-type starts with
`application/json`, parse as JSON; else return the text verbatim. -/
def decodeStage (content : String) (contentType : String) : DecodeResult :=
  if pyStrip content = "" then .emptyMap
  else if startsWith contentType "application/json" then .jsonParsed content
  else .text content

/-- The overall result of a `send_request` call. -/
inductive SendResult where
  | decoded (d : DecodeResult)
  /-- `decode_response=False`: the raw (gzip-inflated) body is returned. -/
  | raw (resp : HttpResponse)
  /-- Terminal `HTTPError` propagated to the caller. -/
  | httpStatusError (code : Nat)
  /-- Terminal `ClientConnectionError` with the given message. -/
  | connFailure (msg : String)
  deriving Repr, DecidableEq

/-- `send_request`, modelled from the attempt loop onwards: run the loop
from attempt 0, then decode the response (or return it raw).  The second
component is the number of attempts made. -/
def send_request (outcomes : Nat → AttemptOutcome) (maxRetries : Nat)
    (decodeResponse : Bool) : SendResult × Nat :=
  match sendLoop outcomes maxRetries 0 with
  | (.ok resp, n) =>
    (if decodeResponse then .decoded (decodeStage resp.bodyText resp.contentType)
     else .raw resp, n)
  | (.httpErr code, n) => (.httpStatusError code, n)
  | (.connFail msg, n) => (.connFailure msg, n)

/-! ### HTTP method determination

```
if not method:
    if params is None:
        method = "GET"
    else:
        method = "POST"
...
if method:
    req.get_method = lambda: method.upper()
```
-/

/-- The `params` argument of `send_request`: a mapping or a string
(`Union[Dict, str, None]`); absence is `Option.none` at the use site. -/
inductive BodyParams where
  | form (entries : List (String × String))
  | str (s : String)
  deriving Repr, DecidableEq

/-- Python truthiness of the `method` argument: `None` and `""` are falsy. -/
def methodFalsy : Option String → Bool
  | none => true
  | some s => s = ""

/-- The method inferred when no (truthy) method is supplied:
`GET` if `params is None`, else `POST`. -/
def inferMethod (params : Option BodyParams) : String :=
  match params with
  | none => "GET"
  | some _ => "POST"

/-- The HTTP method of the built request: the supplied method when truthy,
otherwise the inferred one; upper-cased in either case
(`req.get_method = lambda: method.upper()`). -/
def effectiveMethod (method : Option String) (params : Option BodyParams) :
    String :=
  let m := if methodFalsy method then inferMethod params else method.getD ""
  upperStr m

/-! ### Query dictionaries and the endpoint helpers

Python query dicts are modelled as ordered association lists with
`dict.update` semantics: updating an existing key replaces its value in
place, a new key is appended. -/

/-- A query-parameter value: a string, an integer, or a list of strings
(for `doseq` parameters such as `libraryKey`). -/
inductive QVal where
  | s (v : String)
  | n (v : Int)
  | ls (v : List String)
  deriving Repr, DecidableEq

/-- An ordered string-keyed dictionary, as used for query parameters. -/
abbrev QDict := List (String × QVal)

/-- `d[k] = v`: replace the value of `k` in place if present,
else append the pair (Python dict assignment). -/
def setKey : QDict → String → QVal → QDict
  | [], k, v => [(k, v)]
  | (k', v') :: rest, k, v =>
    if k' = k then (k, v) :: rest else (k', v') :: setKey rest k v

/-- Look up the value of key `k`. -/
def dlookup (k : String) : QDict → Option QVal
  | [] => none
  | (k', v) :: rest => if k' = k then some v else dlookup k rest

/-- `d.update(kvs)`: assign every pair of `kvs`, in order, into `d`. -/
def updateDict (d : QDict) (kvs : QDict) : QDict :=
  kvs.foldl (fun acc kv => setKey acc kv.1 kv.2) d

/-- A conditional dict assignment `if c: d[k] = v` (the recurring
`if <truthy>: result[k] = ...` pattern of `to_dict`). -/
def setIf (c : Prop) [Decidable c] (d : QDict) (k : String) (v : QVal) :
    QDict :=
  if c then setKey d k v else d

/-- `OverDriveClient.MAX_PER_PAGE = 24`. -/
def MAX_PER_PAGE : Int := 24

/-- `OverDriveClient.default_query`: `{"x-client-id": CLIENT_ID}`, with
`{"page": 1, "perPage": MAX_PER_PAGE}` merged in when `paging=True`. -/
def default_query (paging : Bool) : QDict :=
  let query : QDict := [("x-client-id", .s CLIENT_ID)]
  if paging then updateDict query [("page", .n 1), ("perPage", .n MAX_PER_PAGE)]
  else query

/-- Search-parameter builder for `libraries/{key}/media/`
(dataclass `LibraryMediaSearchParams`).  `per_page` and `page` are
Python ints, modelled as integers. -/
structure LibraryMediaSearchParams where
  query : String := ""
  title : String := ""
  creator : String := ""
  identifier : String := ""
  formats : List String := []
  per_page : Int := 20
  page : Int := 1
  sort_by : String := "relevance"
  show_only_available : Bool := false
  show_only_prelease : Bool := false
  media_type : String := ""
  subject_id : String := ""
  title_ids : List String := []
  deriving Repr, DecidableEq

/-- `convert_bool`: `str(value).lower()` of a Python bool. -/
def convert_bool (value : Bool) : String :=
  if value then "true" else "false"

/-- `convert_to_csv`: `",".join([str(v).strip() for v in values])`. -/
def convert_to_csv (values : List String) : String :=
  String.intercalate "," (values.map pyStrip)

/-- The opening lines of `to_dict`: the `page`/`perPage` floor and the
conditional `sortBy`/`format` entries.  Note `max(1, self.page or 0)`:
`page or 0` maps a falsy (zero) page to `0` and is the identity on any
other integer, so on integers it equals `max 1 page`. -/
def to_dict_base (p : LibraryMediaSearchParams) : QDict :=
  setIf (p.formats ≠ [])
    (setIf (p.sort_by ≠ "")
      [("page", .n (max 1 p.page)), ("perPage", .n (max 1 p.per_page))]
      "sortBy" (.s p.sort_by))
    "format" (.s (convert_to_csv p.formats))

/-- The `showOnlyAvailable` / `showOnlyPrerelease` branch of `to_dict`:
`show_only_available` is checked first, `show_only_prelease` only in its
`elif`. -/
def to_dict_show (p : LibraryMediaSearchParams) (d : QDict) : QDict :=
  if p.show_only_available then
    setKey d "showOnlyAvailable" (.s (convert_bool p.show_only_available))
  else if p.show_only_prelease then
    setKey d "showOnlyPrerelease" (.s (convert_bool p.show_only_prelease))
  else d

/-- The trailing conditional entries of `to_dict`: the trimmed
`query`/`title`/`creator`/`identifier` loop, then `titleIds`,
`mediaTypes`, `subject`. -/
def to_dict_tail (p : LibraryMediaSearchParams) (d : QDict) : QDict :=
  setIf (p.subject_id ≠ "")
    (setIf (p.media_type ≠ "")
      (setIf (p.title_ids ≠ [])
        (setIf (p.identifier ≠ "")
          (setIf (p.creator ≠ "")
            (setIf (p.title ≠ "")
              (setIf (p.query ≠ "") d "query" (.s (pyStrip p.query)))
              "title" (.s (pyStrip p.title)))
            "creator" (.s (pyStrip p.creator)))
          "identifier" (.s (pyStrip p.identifier)))
        "titleIds" (.s (String.intercalate "," p.title_ids)))
      "mediaTypes" (.s p.media_type))
    "subject" (.s p.subject_id)

/-- `LibraryMediaSearchParams.to_dict`: the three groups of assignments
in source order. -/
def LibraryMediaSearchParams.to_dict (p : LibraryMediaSearchParams) : QDict :=
  to_dict_tail p (to_dict_show p (to_dict_base p))

/-- Query built by `media(title_id, **kwargs)`:
`default_query()` updated with `kwargs`. -/
def media_query (kwargs : QDict) : QDict :=
  updateDict (default_query false) kwargs

/-- Query built by `media_bulk(title_ids, **kwargs)`. -/
def media_bulk_query (title_ids : List String) (kwargs : QDict) : QDict :=
  updateDict
    (updateDict (default_query false)
      [("titleIds", .s (String.intercalate "," title_ids))])
    kwargs

/-- Query built by the body of `libraries(website_ids, **kwargs)`
(the `pageable` decorator wraps the call but the query mapping passed to
`send_request` is built here). -/
def libraries_query (website_ids : Option (List String)) (kwargs : QDict) :
    QDict :=
  let params := default_query true
  let params := match website_ids with
    | some ids =>
      if ids = [] then params
      else setKey params "websiteIds" (.s (String.intercalate "," ids))
    | none => params
  updateDict params kwargs

/-- Query built by `library_media(library_key, title_id, **kwargs)`. -/
def library_media_query (title_id : String) (kwargs : QDict) : QDict :=
  updateDict (updateDict (default_query false) [("titleIds", .s title_id)])
    kwargs

/-- Query built by `media_search(library_keys, query, **kwargs)`. -/
def media_search_query (library_keys : List String) (query : String)
    (kwargs : QDict) : QDict :=
  updateDict
    (updateDict (default_query false)
      [("libraryKey", .ls library_keys), ("query", .s query)])
    kwargs

/-- Query built by `library_medias(library_key, query)`. -/
def library_medias_query (query : LibraryMediaSearchParams) : QDict :=
  updateDict (default_query false) query.to_dict

/-- Query passed by `library_media_availability` (no extra kwargs). -/
def library_media_availability_query : QDict :=
  default_query false

/-- Query passed by `library_media_availability_bulk` (no extra kwargs;
the title ids travel in the JSON body, not the query). -/
def library_media_availability_bulk_query : QDict :=
  default_query false

/-! ### sort_availabilities -/

/-- An availability record, restricted to the keys the comparator reads.
`isAvailable` is a JSON boolean; the numeric values are modelled as
integers.  A missing key yields the comparator's per-key default. -/
structure AvailabilityRecord where
  isAvailable : Option Bool := none
  luckyDayAvailableCopies : Option Int := none
  estimatedWaitDays : Option Int := none
  holdsRatio : Option Int := none
  ownedCopies : Option Int := none
  deriving Repr, DecidableEq

/-- Python orders booleans as `False < True`; embed into the integers. -/
def boolToInt (b : Bool) : Int :=
  if b then 1 else 0

/-- The comparator's key loop: for each pair of extracted values, return
`1` if the first is greater, `-1` if smaller, else move to the next key;
`0` when all keys tie. -/
def cmpChain : List (Int × Int) → Int
  | [] => 0
  | (va, vb) :: rest =>
    if va > vb then 1 else if va < vb then -1 else cmpChain rest

/-- `OverDriveClient.sort_availabilities`: 5-key comparator.
`estimatedWaitDays` and `holdsRatio` are negated (`fn = lambda v: -1*v`)
before comparison. -/
def sort_availabilities (a b : AvailabilityRecord) : Int :=
  cmpChain
    [ (boolToInt (a.isAvailable.getD false), boolToInt (b.isAvailable.getD false)),
      (a.luckyDayAvailableCopies.getD 0, b.luckyDayAvailableCopies.getD 0),
      (-(a.estimatedWaitDays.getD 9999), -(b.estimatedWaitDays.getD 9999)),
      (-(a.holdsRatio.getD 9999), -(b.holdsRatio.getD 9999)),
      (a.ownedCopies.getD 0, b.ownedCopies.getD 0) ]

/-- Modelled from the spec: the sorting call site that consumes
`sort_availabilities` is not part of the provided source; the spec
states the records are sorted by `(isAvailable desc,
luckyDayAvailableCopies desc, estimatedWaitDays asc, holdsRatio asc,
ownedCopies desc)`, i.e. a record compares ahead of another exactly when
the comparator ranks it strictly greater. -/
def sortsBefore (a b : AvailabilityRecord) : Prop :=
  0 < sort_availabilities a b

instance (a b : AvailabilityRecord) : Decidable (sortsBefore a b) := by
  unfold sortsBefore
  infer_instance

/-! ### extract_isbn -/

/-- A media format record, restricted to the fields `extract_isbn` and
`extract_asin` read: the format id, the optional direct `isbn` field,
and the identifier list as (type, value) pairs. -/
structure MediaFormat where
  id : String
  isbn : Option String := none
  identifiers : List (String × String) := []
  deriving Repr, DecidableEq

/-- `if not format_types: format_types = [f["id"] for f in formats]`. -/
def effectiveFormatTypes (formats : List MediaFormat)
    (format_types : List String) : List String :=
  if format_types = [] then formats.map (·.id) else format_types

/-- The direct-field pass:
`[f["isbn"] for f in formats if f.get("isbn") and f["id"] in format_types]`
(a present but empty `isbn` string is falsy and skipped). -/
def directIsbns (formats : List MediaFormat) (ftypes : List String) :
    List String :=
  formats.filterMap fun f =>
    match f.isbn with
    | some s => if s ≠ "" ∧ f.id ∈ ftypes then some s else none
    | none => none

/-- The identifier-scan pass for one identifier type `t`: walk the
formats whose id is allowed and which carry an identifier of type `t`;
return the first such identifier value that is truthy (non-empty),
else `""`. -/
def scanType (ftypes : List String) (t : String) :
    List MediaFormat → String
  | [] => ""
  | f :: rest =>
    if f.id ∈ ftypes ∧ f.identifiers.filter (fun i => i.1 = t) ≠ [] then
      let v := ((f.identifiers.filter (fun i => i.1 = t)).map Prod.snd).headD ""
      if v ≠ "" then v else scanType ftypes t rest
    else scanType ftypes t rest

/-- `OverDriveClient.extract_isbn`: the direct `isbn` field wins; then
the identifier scan tries type `LibraryISBN`, then `ISBN`; else `""`. -/
def extract_isbn (formats : List MediaFormat) (format_types : List String) :
    String :=
  let ftypes := effectiveFormatTypes formats format_types
  match directIsbns formats ftypes with
  | isbn :: _ => isbn
  | [] =>
    let libIsbn := scanType ftypes "LibraryISBN" formats
    if libIsbn ≠ "" then libIsbn
    else scanType ftypes "ISBN" formats

/-! ### Concrete oracles used by the witnesses -/

/-- An oracle where every attempt raises `HTTPError` with status 503. -/
def oracle503 : Nat → AttemptOutcome := fun _ => .httpError 503

/-- An oracle where every attempt raises `HTTPError` with status 404. -/
def oracle404 : Nat → AttemptOutcome := fun _ => .httpError 404

/-- An oracle where every attempt raises `ConnectionResetError`. -/
def oracleConnReset : Nat → AttemptOutcome :=
  fun _ => .connError "ConnectionResetError" "connection reset by peer"

/-- An oracle whose first attempt succeeds with a whitespace-only body
declared as JSON. -/
def oracleBlankBody : Nat → AttemptOutcome :=
  fun _ => .success ⟨"  ", "application/json"⟩

/-!
## Theorems

First, unfolding lemmas for the attempt loop, then the claim theorems.
-/

/-- If attempt `j` succeeds, the loop stops with that response. -/
theorem sendLoop_success (o : Nat → AttemptOutcome) (N j : Nat)
    (resp : HttpResponse) (h : o j = .success resp) :
    sendLoop o N j = (.ok resp, j + 1) := by
  conv_lhs => rw [sendLoop.eq_def]
  rw [h]

/-- If attempt `j` raises `HTTPError` with a 5xx code and attempts
remain, the loop retries at `j + 1`. -/
theorem sendLoop_http_step (o : Nat → AttemptOutcome) (N j code : Nat)
    (hj : j < N) (hc : 500 ≤ code) (h : o j = .httpError code) :
    sendLoop o N j = sendLoop o N (j + 1) := by
  conv_lhs => rw [sendLoop.eq_def]
  rw [h]
  simp [hj, hc]

/-- If attempt `j` raises `HTTPError` and the retry condition fails, the
error is re-raised. -/
theorem sendLoop_http_stop (o : Nat → AttemptOutcome) (N j code : Nat)
    (hj : ¬(j < N ∧ 500 ≤ code)) (h : o j = .httpError code) :
    sendLoop o N j = (.httpErr code, j + 1) := by
  conv_lhs => rw [sendLoop.eq_def]
  rw [h]
  simp [hj]

/-- If attempt `j` raises a transport fault and attempts remain, the
loop retries at `j + 1`. -/
theorem sendLoop_conn_step (o : Nat → AttemptOutcome) (N j : Nat)
    (cls msg : String) (hj : j < N) (h : o j = .connError cls msg) :
    sendLoop o N j = sendLoop o N (j + 1) := by
  conv_lhs => rw [sendLoop.eq_def]
  rw [h]
  simp [hj]

/-- If attempt `j` raises a transport fault and no attempts remain, the
loop raises `ClientConnectionError`. -/
theorem sendLoop_conn_stop (o : Nat → AttemptOutcome) (N j : Nat)
    (cls msg : String) (hj : ¬ j < N) (h : o j = .connError cls msg) :
    sendLoop o N j = (.connFail (cls ++ " " ++ msg), j + 1) := by
  conv_lhs => rw [sendLoop.eq_def]
  rw [h]
  simp [hj]

/-- When every attempt raises `HTTPError` with a fixed 5xx code, the
loop started at any `j ≤ N` re-raises it after the final attempt `N`. -/
theorem sendLoop_http_exhaust (o : Nat → AttemptOutcome) (code N : Nat)
    (hcode : 500 ≤ code) (ho : ∀ i, o i = .httpError code) :
    ∀ d j, N - j = d → j ≤ N → sendLoop o N j = (.httpErr code, N + 1) := by
  intro d
  induction d with
  | zero =>
    intro j hd hj
    have hjN : j = N := by omega
    rw [sendLoop_http_stop o N j code (by omega) (ho j), hjN]
  | succ d ih =>
    intro j hd hj
    rw [sendLoop_http_step o N j code (by omega) hcode (ho j)]
    exact ih (j + 1) (by omega) (by omega)

/-- When every attempt raises the same transport fault, the loop started
at any `j ≤ N` raises `ClientConnectionError` after the final attempt. -/
theorem sendLoop_conn_exhaust (o : Nat → AttemptOutcome) (cls msg : String)
    (N : Nat) (ho : ∀ i, o i = .connError cls msg) :
    ∀ d j, N - j = d → j ≤ N →
      sendLoop o N j = (.connFail (cls ++ " " ++ msg), N + 1) := by
  intro d
  induction d with
  | zero =>
    intro j hd hj
    have hjN : j = N := by omega
    rw [sendLoop_conn_stop o N j cls msg (by omega) (ho j), hjN]
  | succ d ih =>
    intro j hd hj
    rw [sendLoop_conn_step o N j cls msg (by omega) (ho j)]
    exact ih (j + 1) (by omega) (by omega)

/-- C1: for every non-negative `max_retries = N`, if every attempt of
`send_request` raises an HTTP error with status 503, then exactly
`N + 1` attempts are made and the call terminates by raising the HTTP
status error with code 503. -/
theorem send_request_all_503 (N : Nat) (o : Nat → AttemptOutcome)
    (d : Bool) (ho : ∀ i, o i = .httpError 503) :
    send_request o N d = (.httpStatusError 503, N + 1) := by
  unfold send_request
  rw [sendLoop_http_exhaust o 503 N (by omega) ho (N - 0) 0 rfl (by omega)]

/-- Witness for C1 at `max_retries = 2`: three attempts, terminal 503. -/
theorem send_request_all_503_witness :
    send_request oracle503 2 true = (.httpStatusError 503, 3) :=
  send_request_all_503 2 oracle503 true (fun _ => rfl)

/-- C2: for every `max_retries` value, an HTTP error with a 4xx status
on the first attempt is propagated immediately: exactly one attempt is
made and no retry occurs. -/
theorem send_request_4xx_single_attempt (o : Nat → AttemptOutcome)
    (N : Nat) (d : Bool) (code : Nat) (h4 : 400 ≤ code) (h5 : code < 500)
    (h0 : o 0 = .httpError code) :
    send_request o N d = (.httpStatusError code, 1) := by
  unfold send_request
  rw [sendLoop_http_stop o N 0 code (by omega) h0]

/-- Witness for C2 at status 404 and `max_retries = 5`: one attempt. -/
theorem send_request_4xx_single_attempt_witness :
    400 ≤ 404 ∧ 404 < 500 ∧
      send_request oracle404 5 true = (.httpStatusError 404, 1) :=
  ⟨by decide, by decide,
    send_request_4xx_single_attempt oracle404 5 true 404 (by decide)
      (by decide) rfl⟩

/-- C3: in decode mode, a response whose body (after gzip inflation and
UTF-8 decoding) is empty or whitespace-only yields the empty mapping,
for every declared content-type. -/
theorem send_request_blank_body_emptyMap (o : Nat → AttemptOutcome)
    (N : Nat) (body ct : String) (h0 : o 0 = .success ⟨body, ct⟩)
    (hb : pyStrip body = "") :
    send_request o N true = (.decoded .emptyMap, 1) := by
  unfold send_request
  rw [sendLoop_success o N 0 ⟨body, ct⟩ h0]
  simp [decodeStage, hb]

/-- Witness for C3: a whitespace-only body declared as JSON decodes to
the empty mapping. -/
theorem send_request_blank_body_emptyMap_witness :
    pyStrip "  " = "" ∧
      send_request oracleBlankBody 0 true = (.decoded .emptyMap, 1) :=
  ⟨by decide,
    send_request_blank_body_emptyMap oracleBlankBody 0 "  "
      "application/json" rfl (by decide)⟩

/-- C4: the HTTP method of the built request is the explicit method
argument upper-cased when a (non-empty, hence truthy) one is supplied;
otherwise it is GET exactly when no body is supplied and POST
otherwise. -/
theorem effectiveMethod_spec :
    (∀ (s : String) (p : Option BodyParams), s ≠ "" →
        effectiveMethod (some s) p = upperStr s) ∧
    effectiveMethod none none = "GET" ∧
    (∀ b, effectiveMethod none (some b) = "POST") := by
  refine ⟨?_, ?_, ?_⟩
  · intro s p hs
    simp [effectiveMethod, methodFalsy, hs]
  · rfl
  · intro b
    rfl

/-- Witness for C4: a supplied lower-case method is upper-cased. -/
theorem effectiveMethod_spec_witness :
    "put" ≠ "" ∧ effectiveMethod (some "put") none = "PUT" :=
  ⟨by decide, (effectiveMethod_spec.1 "put" none (by decide)).trans (by decide)⟩

/-- C8: when every attempt fails with the same transport-level fault and
the retry budget is exhausted, the call raises `ClientConnectionError`
whose message contains the original fault's class name and message
(the class name is a prefix and the message a suffix of it). -/
theorem send_request_conn_exhaust (o : Nat → AttemptOutcome) (N : Nat)
    (d : Bool) (cls msg : String) (ho : ∀ i, o i = .connError cls msg) :
    send_request o N d = (.connFailure (cls ++ " " ++ msg), N + 1) ∧
    (∃ rest, cls ++ " " ++ msg = cls ++ rest) ∧
    (∃ pre, cls ++ " " ++ msg = pre ++ msg) := by
  refine ⟨?_, ⟨" " ++ msg, String.append_assoc cls " " msg⟩, ⟨cls ++ " ", rfl⟩⟩
  unfold send_request
  rw [sendLoop_conn_exhaust o cls msg N ho (N - 0) 0 rfl (by omega)]

/-- Witness for C8 at `max_retries = 1` with a connection-reset fault. -/
theorem send_request_conn_exhaust_witness :
    send_request oracleConnReset 1 true =
      (.connFailure ("ConnectionResetError" ++ " " ++ "connection reset by peer"),
        2) :=
  (send_request_conn_exhaust oracleConnReset 1 true "ConnectionResetError"
    "connection reset by peer" (fun _ => rfl)).1

/-! ### Dictionary lemmas -/

/-- Assigning key `k` makes it look up to the assigned value. -/
theorem dlookup_setKey_self (d : QDict) (k : String) (v : QVal) :
    dlookup k (setKey d k v) = some v := by
  induction d with
  | nil => simp [setKey, dlookup]
  | cons kv rest ih =>
    obtain ⟨k', v'⟩ := kv
    by_cases h : k' = k
    · subst h
      simp [setKey, dlookup]
    · simp [setKey, dlookup, h, ih]

/-- Assigning a different key leaves a lookup unchanged. -/
theorem dlookup_setKey_ne (d : QDict) (k k' : String) (v : QVal)
    (h : k' ≠ k) : dlookup k (setKey d k' v) = dlookup k d := by
  induction d with
  | nil => simp [setKey, dlookup, h]
  | cons kv rest ih =>
    obtain ⟨k₀, v₀⟩ := kv
    by_cases h0 : k₀ = k'
    · subst h0
      simp only [setKey, if_pos rfl, dlookup]
      rw [if_neg h, if_neg h]
    · simp only [setKey, if_neg h0, dlookup]
      by_cases h1 : k₀ = k
      · rw [if_pos h1, if_pos h1]
      · rw [if_neg h1, if_neg h1, ih]

/-- A conditional assignment to a different key leaves a lookup
unchanged. -/
theorem dlookup_setIf_ne (c : Prop) [Decidable c] (d : QDict)
    (k k' : String) (v : QVal) (h : k' ≠ k) :
    dlookup k (setIf c d k' v) = dlookup k d := by
  unfold setIf
  split
  · exact dlookup_setKey_ne d k k' v h
  · rfl

/-- Assignment preserves presence of any key. -/
theorem dlookup_setKey_isSome (d : QDict) (k k' : String) (v : QVal)
    (h : (dlookup k d).isSome) : (dlookup k (setKey d k' v)).isSome := by
  by_cases hk : k' = k
  · subst hk
    rw [dlookup_setKey_self]
    rfl
  · rwa [dlookup_setKey_ne d k k' v hk]

/-- `dict.update` preserves presence of any key. -/
theorem dlookup_updateDict_isSome (kvs : QDict) :
    ∀ (d : QDict) (k : String), (dlookup k d).isSome →
      (dlookup k (updateDict d kvs)).isSome := by
  induction kvs with
  | nil => intro d k h; exact h
  | cons kv rest ih =>
    intro d k h
    exact ih (setKey d kv.1 kv.2) k (dlookup_setKey_isSome d k kv.1 kv.2 h)

/-- `dict.update` with a mapping not containing `k` leaves the lookup of
`k` unchanged. -/
theorem dlookup_updateDict_not_mem (kvs : QDict) :
    ∀ (d : QDict) (k : String), k ∉ kvs.map Prod.fst →
      dlookup k (updateDict d kvs) = dlookup k d := by
  induction kvs with
  | nil => intro d k _; rfl
  | cons kv rest ih =>
    intro d k h
    simp only [List.map_cons, List.mem_cons] at h
    push_neg at h
    have step : updateDict d (kv :: rest) =
        updateDict (setKey d kv.1 kv.2) rest := rfl
    rw [step, ih _ k h.2, dlookup_setKey_ne d k kv.1 kv.2 (Ne.symm h.1)]

/-- `dict.update`: an updating value wins on key collision (for an
update mapping with distinct keys, as Python kwargs are). -/
theorem dlookup_updateDict_mem (kvs : QDict) :
    ∀ (d : QDict) (k : String) (v : QVal),
      (kvs.map Prod.fst).Nodup → dlookup k kvs = some v →
      dlookup k (updateDict d kvs) = some v := by
  induction kvs with
  | nil => intro d k v _ h; simp [dlookup] at h
  | cons kv rest ih =>
    intro d k v hnd hl
    obtain ⟨k₀, v₀⟩ := kv
    simp only [List.map_cons, List.nodup_cons] at hnd
    have step : updateDict d ((k₀, v₀) :: rest) =
        updateDict (setKey d k₀ v₀) rest := rfl
    by_cases hk : k₀ = k
    · subst hk
      rw [dlookup, if_pos rfl] at hl
      rw [step, dlookup_updateDict_not_mem rest _ k₀ hnd.1,
        dlookup_setKey_self]
      exact hl
    · rw [dlookup, if_neg hk] at hl
      rw [step]
      exact ih _ k v hnd.2 hl

/-- C5: every endpoint-helper query contains the client-identifier key
`x-client-id`, and for the helpers accepting extra keyword arguments, a
caller-supplied value wins on key collision with any default or
helper-set key. -/
theorem endpoint_queries_spec :
    (∀ kwargs, (dlookup "x-client-id" (media_query kwargs)).isSome) ∧
    (∀ tids kwargs,
      (dlookup "x-client-id" (media_bulk_query tids kwargs)).isSome) ∧
    (∀ wids kwargs,
      (dlookup "x-client-id" (libraries_query wids kwargs)).isSome) ∧
    (∀ tid kwargs,
      (dlookup "x-client-id" (library_media_query tid kwargs)).isSome) ∧
    (∀ lks q kwargs,
      (dlookup "x-client-id" (media_search_query lks q kwargs)).isSome) ∧
    (∀ p, (dlookup "x-client-id" (library_medias_query p)).isSome) ∧
    (dlookup "x-client-id" library_media_availability_query).isSome ∧
    (dlookup "x-client-id" library_media_availability_bulk_query).isSome ∧
    (∀ kwargs k v, (kwargs.map Prod.fst).Nodup → dlookup k kwargs = some v →
      dlookup k (media_query kwargs) = some v ∧
      (∀ tids, dlookup k (media_bulk_query tids kwargs) = some v) ∧
      (∀ wids, dlookup k (libraries_query wids kwargs) = some v) ∧
      (∀ tid, dlookup k (library_media_query tid kwargs) = some v) ∧
      (∀ lks q, dlookup k (media_search_query lks q kwargs) = some v)) := by
  have hbase : (dlookup "x-client-id" (default_query false)).isSome := by
    decide
  have hlib : ∀ wids, (dlookup "x-client-id"
      ((fun params => match wids with
        | some ids =>
          if ids = [] then params
          else setKey params "websiteIds" (.s (String.intercalate "," ids))
        | none => params) (default_query true))).isSome := by
    intro wids
    cases wids with
    | none => decide
    | some ids =>
      by_cases h : ids = []
      · simp only [h, if_pos rfl]
        decide
      · simp only [if_neg h]
        apply dlookup_setKey_isSome
        decide
  refine ⟨?_, ?_, ?_, ?_, ?_, ?_, by decide, by decide, ?_⟩
  · intro kwargs
    exact dlookup_updateDict_isSome kwargs _ _ hbase
  · intro tids kwargs
    exact dlookup_updateDict_isSome kwargs _ _
      (dlookup_updateDict_isSome _ _ _ hbase)
  · intro wids kwargs
    exact dlookup_updateDict_isSome kwargs _ _ (hlib wids)
  · intro tid kwargs
    exact dlookup_updateDict_isSome kwargs _ _
      (dlookup_updateDict_isSome _ _ _ hbase)
  · intro lks q kwargs
    exact dlookup_updateDict_isSome kwargs _ _
      (dlookup_updateDict_isSome _ _ _ hbase)
  · intro p
    exact dlookup_updateDict_isSome _ _ _ hbase
  · intro kwargs k v hnd hl
    exact ⟨dlookup_updateDict_mem kwargs _ k v hnd hl,
      fun tids => dlookup_updateDict_mem kwargs _ k v hnd hl,
      fun wids => dlookup_updateDict_mem kwargs _ k v hnd hl,
      fun tid => dlookup_updateDict_mem kwargs _ k v hnd hl,
      fun lks q => dlookup_updateDict_mem kwargs _ k v hnd hl⟩

/-- Witness for C5: a caller-supplied `x-client-id` overrides the
default, and the key is present in a plain `media` query. -/
theorem endpoint_queries_spec_witness :
    (([("x-client-id", QVal.s "other")] : QDict).map Prod.fst).Nodup ∧
    dlookup "x-client-id" ([("x-client-id", QVal.s "other")] : QDict) =
      some (.s "other") ∧
    dlookup "x-client-id" (media_query [("x-client-id", QVal.s "other")]) =
      some (.s "other") ∧
    (dlookup "x-client-id" (media_query [])).isSome := by
  obtain ⟨h1, -, -, -, -, -, -, -, h9⟩ := endpoint_queries_spec
  exact ⟨by decide, by decide,
    (h9 [("x-client-id", QVal.s "other")] "x-client-id" (.s "other")
      (by decide) (by decide)).1, h1 []⟩

/-! ### to_dict lemmas -/

/-- The trailing `to_dict` entries never touch `showOnlyAvailable`. -/
theorem to_dict_tail_avail (p : LibraryMediaSearchParams) (d : QDict) :
    dlookup "showOnlyAvailable" (to_dict_tail p d) =
      dlookup "showOnlyAvailable" d := by
  unfold to_dict_tail
  rw [dlookup_setIf_ne _ _ _ _ _ (by decide),
    dlookup_setIf_ne _ _ _ _ _ (by decide),
    dlookup_setIf_ne _ _ _ _ _ (by decide),
    dlookup_setIf_ne _ _ _ _ _ (by decide),
    dlookup_setIf_ne _ _ _ _ _ (by decide),
    dlookup_setIf_ne _ _ _ _ _ (by decide),
    dlookup_setIf_ne _ _ _ _ _ (by decide)]

/-- The trailing `to_dict` entries never touch `showOnlyPrerelease`. -/
theorem to_dict_tail_prerel (p : LibraryMediaSearchParams) (d : QDict) :
    dlookup "showOnlyPrerelease" (to_dict_tail p d) =
      dlookup "showOnlyPrerelease" d := by
  unfold to_dict_tail
  rw [dlookup_setIf_ne _ _ _ _ _ (by decide),
    dlookup_setIf_ne _ _ _ _ _ (by decide),
    dlookup_setIf_ne _ _ _ _ _ (by decide),
    dlookup_setIf_ne _ _ _ _ _ (by decide),
    dlookup_setIf_ne _ _ _ _ _ (by decide),
    dlookup_setIf_ne _ _ _ _ _ (by decide),
    dlookup_setIf_ne _ _ _ _ _ (by decide)]

/-- The leading `to_dict` entries contain neither show flag. -/
theorem to_dict_base_show_none (p : LibraryMediaSearchParams) :
    dlookup "showOnlyAvailable" (to_dict_base p) = none ∧
    dlookup "showOnlyPrerelease" (to_dict_base p) = none := by
  unfold to_dict_base
  rw [dlookup_setIf_ne _ _ _ _ _ (by decide),
    dlookup_setIf_ne _ _ _ _ _ (by decide),
    dlookup_setIf_ne _ _ _ _ _ (by decide),
    dlookup_setIf_ne _ _ _ _ _ (by decide)]
  exact ⟨rfl, rfl⟩

/-- C6: `to_dict` emits `showOnlyAvailable="true"` and never
`showOnlyPrerelease` when `show_only_available` is set, even when
`show_only_prelease` is also set; `showOnlyPrerelease="true"` is emitted
exactly when `show_only_available` is unset and `show_only_prelease`
set. -/
theorem to_dict_show_flags (p : LibraryMediaSearchParams) :
    (p.show_only_available = true →
      dlookup "showOnlyAvailable" p.to_dict = some (.s "true") ∧
      dlookup "showOnlyPrerelease" p.to_dict = none) ∧
    (dlookup "showOnlyPrerelease" p.to_dict = some (.s "true") ↔
      p.show_only_available = false ∧ p.show_only_prelease = true) := by
  obtain ⟨hbA, hbP⟩ := to_dict_base_show_none p
  have hA : dlookup "showOnlyAvailable" p.to_dict =
      dlookup "showOnlyAvailable" (to_dict_show p (to_dict_base p)) :=
    to_dict_tail_avail p _
  have hP : dlookup "showOnlyPrerelease" p.to_dict =
      dlookup "showOnlyPrerelease" (to_dict_show p (to_dict_base p)) :=
    to_dict_tail_prerel p _
  cases hav : p.show_only_available with
  | true =>
    have e : to_dict_show p (to_dict_base p) =
        setKey (to_dict_base p) "showOnlyAvailable"
          (.s (convert_bool p.show_only_available)) := by
      unfold to_dict_show
      rw [if_pos hav]
    constructor
    · intro _
      rw [hA, hP, e, hav, dlookup_setKey_self,
        dlookup_setKey_ne _ _ _ _ (by decide), hbP]
      exact ⟨rfl, rfl⟩
    · rw [hP, e, dlookup_setKey_ne _ _ _ _ (by decide), hbP]
      simp [hav]
  | false =>
    cases hpre : p.show_only_prelease with
    | true =>
      have e : to_dict_show p (to_dict_base p) =
          setKey (to_dict_base p) "showOnlyPrerelease"
            (.s (convert_bool p.show_only_prelease)) := by
        unfold to_dict_show
        rw [if_neg (by simp [hav]), if_pos hpre]
      constructor
      · intro h
        exact absurd h (by decide)
      · rw [hP, e, hpre, dlookup_setKey_self]
        simp [hav, hpre, convert_bool]
    | false =>
      have e : to_dict_show p (to_dict_base p) = to_dict_base p := by
        unfold to_dict_show
        rw [if_neg (by simp [hav]), if_neg (by simp [hpre])]
      constructor
      · intro h
        exact absurd h (by decide)
      · rw [hP, e, hbP]
        simp [hav, hpre]

/-- Witness for C6: with both flags set, only `showOnlyAvailable` is
emitted. -/
theorem to_dict_show_flags_witness :
    dlookup "showOnlyAvailable"
        (LibraryMediaSearchParams.to_dict
          { show_only_available := true, show_only_prelease := true }) =
      some (.s "true") ∧
    dlookup "showOnlyPrerelease"
        (LibraryMediaSearchParams.to_dict
          { show_only_available := true, show_only_prelease := true }) =
      none :=
  (to_dict_show_flags
    { show_only_available := true, show_only_prelease := true }).1 rfl

/-! ### sort_availabilities lemmas -/

/-- C7: an available record with one owned copy compares ahead of an
unavailable one with a hundred owned copies: the comparator returns `1`
on the pair, i.e. ranks the available record strictly greater, which the
sort (descending, per the spec) places first. -/
theorem sort_availabilities_available_first :
    sort_availabilities
        { isAvailable := some true, ownedCopies := some 1 }
        { isAvailable := some false, ownedCopies := some 100 } = 1 ∧
    sortsBefore
      { isAvailable := some true, ownedCopies := some 1 }
      { isAvailable := some false, ownedCopies := some 100 } :=
  ⟨by decide, by decide⟩

/-- Swapping every pair negates the comparator chain. -/
theorem cmpChain_swap (l : List (Int × Int)) :
    cmpChain (l.map Prod.swap) = - cmpChain l := by
  induction l with
  | nil => simp [cmpChain]
  | cons p rest ih =>
    obtain ⟨x, y⟩ := p
    simp only [List.map_cons, Prod.swap_prod_mk, cmpChain]
    split_ifs <;> omega

/-- A chain of tied pairs compares equal. -/
theorem cmpChain_refl (l : List (Int × Int)) (h : ∀ p ∈ l, p.1 = p.2) :
    cmpChain l = 0 := by
  induction l with
  | nil => rfl
  | cons p rest ih =>
    obtain ⟨x, y⟩ := p
    have hx : x = y := h (x, y) (by simp)
    subst hx
    simp only [cmpChain]
    rw [if_neg (by omega), if_neg (by omega)]
    exact ih (fun q hq => h q (by simp [hq]))

/-- C10: the comparator is antisymmetric
(`sort_availabilities a b = -sort_availabilities b a`) and zero on equal
arguments. -/
theorem sort_availabilities_antisymm (a b : AvailabilityRecord) :
    sort_availabilities a b = - sort_availabilities b a ∧
    sort_availabilities a a = 0 := by
  constructor
  · have h := cmpChain_swap
      [ (boolToInt (b.isAvailable.getD false), boolToInt (a.isAvailable.getD false)),
        (b.luckyDayAvailableCopies.getD 0, a.luckyDayAvailableCopies.getD 0),
        (-(b.estimatedWaitDays.getD 9999), -(a.estimatedWaitDays.getD 9999)),
        (-(b.holdsRatio.getD 9999), -(a.holdsRatio.getD 9999)),
        (b.ownedCopies.getD 0, a.ownedCopies.getD 0) ]
    simp only [List.map_cons, List.map_nil, Prod.swap_prod_mk] at h
    rw [show sort_availabilities a b =
        cmpChain
          [ (boolToInt (a.isAvailable.getD false), boolToInt (b.isAvailable.getD false)),
            (a.luckyDayAvailableCopies.getD 0, b.luckyDayAvailableCopies.getD 0),
            (-(a.estimatedWaitDays.getD 9999), -(b.estimatedWaitDays.getD 9999)),
            (-(a.holdsRatio.getD 9999), -(b.holdsRatio.getD 9999)),
            (a.ownedCopies.getD 0, b.ownedCopies.getD 0) ] from rfl, h]
    rfl
  · apply cmpChain_refl
    intro q hq
    simp only [sort_availabilities, List.mem_cons, List.not_mem_nil,
      or_false] at hq
    rcases hq with h | h | h | h | h <;> subst h <;> rfl

/-! ### extract_isbn -/

/-- C9: with an empty `format_types` allow-list, `extract_isbn` behaves
as if the allow-list contained every format's id: every format passes
the allow-list test used by both the direct-field check and the
identifier scan, and the result equals the one for the full id list. -/
theorem extract_isbn_empty_allowlist (formats : List MediaFormat)
    (hne : formats ≠ []) :
    (∀ f ∈ formats, f.id ∈ effectiveFormatTypes formats []) ∧
    extract_isbn formats [] = extract_isbn formats (formats.map (·.id)) := by
  have he : effectiveFormatTypes formats (formats.map (·.id)) =
      effectiveFormatTypes formats [] := by
    unfold effectiveFormatTypes
    split <;> simp_all
  constructor
  · intro f hf
    unfold effectiveFormatTypes
    rw [if_pos rfl]
    exact List.mem_map_of_mem _ hf
  · unfold extract_isbn
    rw [he]

/-- Witness for C9 on a two-format list with a direct isbn on the
second format. -/
theorem extract_isbn_empty_allowlist_witness :
    ([⟨"ebook-overdrive", none, [("ISBN", "999")]⟩,
        ⟨"ebook-epub", some "123", []⟩] : List MediaFormat) ≠ [] ∧
    extract_isbn
        [⟨"ebook-overdrive", none, [("ISBN", "999")]⟩,
          ⟨"ebook-epub", some "123", []⟩] [] =
      extract_isbn
        [⟨"ebook-overdrive", none, [("ISBN", "999")]⟩,
          ⟨"ebook-epub", some "123", []⟩]
        ["ebook-overdrive", "ebook-epub"] :=
  ⟨by decide,
    (extract_isbn_empty_allowlist
      [⟨"ebook-overdrive", none, [("ISBN", "999")]⟩,
        ⟨"ebook-epub", some "123", []⟩] (by decide)).2⟩

end LibbyClient
